import Mathlib

/-!
Verification of the bounded zstd codec gateway (`zstd_native.cpp`).

The native module wraps two opaque codec primitives (compression and
decompression, together with a worst-case bound query and a frame
content-size query) behind validation logic: compression-level
validation, configurable input/output size limits held in a
mutex-guarded registry, and a zero-length fast path.  The entropy
coder itself is an external library and is modelled as an opaque
`Codec` structure; everything else below is translated directly from
the source.

Numbers arriving from the host language are modelled by their exact
integer values (host-language call marshaling is out of scope); byte
buffers are lists of naturals.
-/

namespace ZstdNative

/-- Constants from the source: default/min/max compression level. -/
def DEFAULT_LEVEL : Int := 3

def MIN_LEVEL : Int := 1

def MAX_LEVEL : Int := 22

/-- Default size limits (2GB), from the source. -/
def DEFAULT_MAX_INPUT_SIZE : Nat := 2 ^ 31

def DEFAULT_MAX_OUTPUT_SIZE : Nat := 2 ^ 31

/-- Capacity of `size_t` on a 64-bit platform, used by `safeConvertToSizeT`. -/
def SIZE_MAX : Nat := 2 ^ 64 - 1

/-- The mutex-guarded limit registry state: `g_max_input_size` and
`g_max_output_size`. -/
structure Limits where
  maxInputSize : Nat
  maxOutputSize : Nat
deriving DecidableEq, Repr

/-- The registry state at process start. -/
def defaultLimits : Limits :=
  { maxInputSize := DEFAULT_MAX_INPUT_SIZE, maxOutputSize := DEFAULT_MAX_OUTPUT_SIZE }

/-- Typed rendering of the distinct `throw` sites of the source.  The
source raises `std::runtime_error` with a message; each constructor
corresponds to one throw site (the spec names them `InvalidArgument`,
`InvalidLevel`, `InputTooLarge`/`OutputTooLarge` via the context string
of `validateSize`, `CorruptInput`, `UnknownSize`, `CodecFailure`). -/
inductive ZstdError where
  | invalidArgument (msg : String)
  | invalidLevel
  | sizeExceeded (context : String) (size limit : Nat)
  | corruptInput (reason : String)
  | unknownSize
  | codecFailure (reason : String)
deriving DecidableEq, Repr

/-- A JavaScript value as seen through the N-API argument checks the
source performs (`IsBuffer`, `IsNumber`). -/
inductive JSVal where
  | buf (b : List Nat)
  | num (n : Int)
  | str (s : String)
  | undef
deriving DecidableEq

/-- The opaque codec capability: `ZSTD_compressBound`,
`ZSTD_compress` (source, destination capacity, level),
`ZSTD_getFrameContentSize` (`.error` for a malformed frame as reported
by `ZSTD_isError`, `.ok none` for `ZSTD_CONTENTSIZE_UNKNOWN`,
`.ok (some n)` for a declared content size) and `ZSTD_decompress`
(source, destination capacity). -/
structure Codec where
  compressBound : Nat → Nat
  compressImpl : List Nat → Nat → Int → Except String (List Nat)
  getFrameContentSize : List Nat → Except String (Option Nat)
  decompressImpl : List Nat → Nat → Except String (List Nat)

/-- Record of one invocation of a codec primitive, used to state that a
rejection happens before any codec work. -/
inductive PrimCall where
  | boundCall (srcSize : Nat)
  | compressCall (src : List Nat) (dstCapacity : Nat) (level : Int)
  | frameSizeCall (src : List Nat)
  | decompressCall (src : List Nat) (dstCapacity : Nat)
deriving DecidableEq

/-- `validateLevel` from the source: rejects levels outside
[`MIN_LEVEL`, `MAX_LEVEL`]. -/
def validateLevel (level : Int) : Except ZstdError Int :=
  if level < MIN_LEVEL ∨ level > MAX_LEVEL then .error .invalidLevel
  else .ok level

/-- `validateSize` from the source: rejects a size strictly above the
limit, recording the context ("Input" or "Output"), the size and the
limit. -/
def validateSize (size limit : Nat) (context : String) : Except ZstdError Unit :=
  if size > limit then .error (.sizeExceeded context size limit)
  else .ok ()

/-- `safeConvertToSizeT` from the source: rejects a negative value, then
a value whose unsigned cast exceeds `SIZE_MAX`. -/
def safeConvertToSizeT (value : Int) (context : String) : Except ZstdError Nat :=
  if value < 0 then .error (.invalidArgument (context ++ " cannot be negative"))
  else if (SIZE_MAX : Int) < value then .error (.invalidArgument (context ++ " is too large"))
  else .ok value.toNat

/-- `SetMaxInputSize` from the source: checks the argument is a number,
converts it via `safeConvertToSizeT`, and on success stores it under the
lock; on any failure the registry is untouched. -/
def SetMaxInputSize (limits : Limits) (args : List JSVal) :
    Except ZstdError Unit × Limits :=
  match args.head? with
  | some (.num value) =>
    match safeConvertToSizeT value "Input size limit" with
    | .ok newSize => (.ok (), { limits with maxInputSize := newSize })
    | .error e => (.error e, limits)
  | _ => (.error (.invalidArgument "Expected a number argument"), limits)

/-- `SetMaxOutputSize` from the source, the mirror of `SetMaxInputSize`. -/
def SetMaxOutputSize (limits : Limits) (args : List JSVal) :
    Except ZstdError Unit × Limits :=
  match args.head? with
  | some (.num value) =>
    match safeConvertToSizeT value "Output size limit" with
    | .ok newSize => (.ok (), { limits with maxOutputSize := newSize })
    | .error e => (.error e, limits)
  | _ => (.error (.invalidArgument "Expected a number argument"), limits)

/-- `GetLimits` from the source: copies both fields under the lock. -/
def GetLimits (limits : Limits) : Nat × Nat :=
  (limits.maxInputSize, limits.maxOutputSize)

/-- `Compress` from the source, with its trace of codec-primitive
invocations.  The source acquires the registry mutex twice: once for
the input-size check and once for the output-bound check; `l1` is the
registry state observed at the first acquisition and `l2` at the
second, so a single sequential call is `CompressT codec l l args`.
Pipeline (in source order): buffer type check; level (validated when
the second argument is a number, `DEFAULT_LEVEL` otherwise); input-size
check against `l1.maxInputSize`; zero-length fast path; worst-case
bound; bound check against `l2.maxOutputSize`; the compression
primitive, whose error is wrapped as a codec failure and whose output
(already truncated to the compressed length) is returned. -/
def CompressT (codec : Codec) (l1 l2 : Limits) (args : List JSVal) :
    Except ZstdError (List Nat) × List PrimCall :=
  match args.head? with
  | some (.buf input) =>
    match (match args[1]? with
           | some (.num n) => validateLevel n
           | _ => .ok DEFAULT_LEVEL) with
    | .error e => (.error e, [])
    | .ok level =>
      let srcSize := input.length
      match validateSize srcSize l1.maxInputSize "Input" with
      | .error e => (.error e, [])
      | .ok _ =>
        if srcSize = 0 then (.ok [], [])
        else
          let bound := codec.compressBound srcSize
          match validateSize bound l2.maxOutputSize "Output" with
          | .error e => (.error e, [.boundCall srcSize])
          | .ok _ =>
            match codec.compressImpl input bound level with
            | .error reason =>
              (.error (.codecFailure ("Compression failed: " ++ reason)),
               [.boundCall srcSize, .compressCall input bound level])
            | .ok out =>
              (.ok out, [.boundCall srcSize, .compressCall input bound level])
  | _ => (.error (.invalidArgument "First argument must be a Buffer"), [])

/-- A sequential `Compress` call: both lock acquisitions observe the
same registry state. -/
def Compress (codec : Codec) (limits : Limits) (args : List JSVal) :
    Except ZstdError (List Nat) :=
  (CompressT codec limits limits args).1

/-- `Decompress` from the source, with its trace of codec-primitive
invocations; `l1`/`l2` are the registry states observed at the two
mutex acquisitions, as in `CompressT`.  Pipeline: buffer type check;
input-size check against `l1.maxInputSize`; zero-length fast path;
frame content-size query (malformed frame wrapped as corrupt input,
unknown size rejected); declared-size check against
`l2.maxOutputSize`; the decompression primitive. -/
def DecompressT (codec : Codec) (l1 l2 : Limits) (args : List JSVal) :
    Except ZstdError (List Nat) × List PrimCall :=
  match args.head? with
  | some (.buf input) =>
    let srcSize := input.length
    match validateSize srcSize l1.maxInputSize "Input" with
    | .error e => (.error e, [])
    | .ok _ =>
      if srcSize = 0 then (.ok [], [])
      else
        match codec.getFrameContentSize input with
        | .error reason =>
          (.error (.corruptInput ("Invalid compressed data: " ++ reason)),
           [.frameSizeCall input])
        | .ok none => (.error .unknownSize, [.frameSizeCall input])
        | .ok (some decompressedSize) =>
          match validateSize decompressedSize l2.maxOutputSize "Output" with
          | .error e => (.error e, [.frameSizeCall input])
          | .ok _ =>
            match codec.decompressImpl input decompressedSize with
            | .error reason =>
              (.error (.codecFailure ("Decompression failed: " ++ reason)),
               [.frameSizeCall input, .decompressCall input decompressedSize])
            | .ok out =>
              (.ok out, [.frameSizeCall input, .decompressCall input decompressedSize])
  | _ => (.error (.invalidArgument "First argument must be a Buffer"), [])

/-- A sequential `Decompress` call: both lock acquisitions observe the
same registry state. -/
def Decompress (codec : Codec) (limits : Limits) (args : List JSVal) :
    Except ZstdError (List Nat) :=
  (DecompressT codec limits limits args).1

/-- Compress then decompress under one unchanged registry state. -/
def roundTrip (codec : Codec) (limits : Limits) (b : List Nat) (level : Int) :
    Except ZstdError (List Nat) :=
  Compress codec limits [.buf b, .num level] >>= fun c =>
    Decompress codec limits [.buf c]

/-- A concrete codec used to instantiate theorems: a length-prefix
coder whose primitives are genuinely inverse to each other. -/
def mockCodec : Codec where
  compressBound srcSize := srcSize + 64
  compressImpl src dstCapacity _level :=
    if src.length + 1 ≤ dstCapacity then .ok (src.length :: src)
    else .error "Destination buffer is too small"
  getFrameContentSize src :=
    match src with
    | n :: _ => .ok (some n)
    | [] => .error "Unknown frame descriptor"
  decompressImpl src dstCapacity :=
    match src with
    | _n :: rest => if rest.length ≤ dstCapacity then .ok rest
                    else .error "Destination buffer is too small"
    | [] => .error "Unknown frame descriptor"

/-- A codec whose frames never declare a content size (streaming-style
frames). -/
def streamingCodec : Codec :=
  { mockCodec with getFrameContentSize := fun _ => .ok none }

/-- A codec that compresses everything to a single byte while keeping
the pessimistic worst-case bound of `mockCodec`. -/
def tinyOutputCodec : Codec :=
  { mockCodec with compressImpl := fun _ _ _ => .ok [0] }

end ZstdNative

namespace ZstdNative

/-- C2: for every current limit configuration, compressing and
decompressing a zero-length buffer both succeed with a zero-length
buffer, and the codec-primitive invocation trace of either call is
empty — no bound, compression, frame-size or decompression primitive
is invoked. -/
theorem empty_input_short_circuits (codec : Codec) (limits : Limits) :
    CompressT codec limits limits [.buf []] = (.ok [], []) ∧
    DecompressT codec limits limits [.buf []] = (.ok [], []) := by
  constructor <;> simp [CompressT, DecompressT, validateSize]

/-- C3: with no level argument, `Compress` behaves exactly as with the
explicit default level 3; with a level argument outside [1, 22] it
fails with the invalid-level error. -/
theorem level_default_and_validation (codec : Codec) (limits : Limits)
    (b : List Nat) (level : Int) (h : level < MIN_LEVEL ∨ MAX_LEVEL < level) :
    Compress codec limits [.buf b] = Compress codec limits [.buf b, .num DEFAULT_LEVEL] ∧
    Compress codec limits [.buf b, .num level] = .error .invalidLevel := by
  constructor
  · simp [Compress, CompressT, validateLevel, DEFAULT_LEVEL, MIN_LEVEL, MAX_LEVEL]
  · have hv : validateLevel level = .error .invalidLevel := by
      unfold validateLevel
      rw [if_pos h]
    simp [Compress, CompressT, hv]

/-- Witness for C3 at the two levels named by the spec: level 0 and
level 23 are both rejected as invalid. -/
theorem level_default_and_validation_witness :
    Compress mockCodec defaultLimits [.buf [], .num 0] = .error .invalidLevel ∧
    Compress mockCodec defaultLimits [.buf [], .num 23] = .error .invalidLevel :=
  ⟨(level_default_and_validation mockCodec defaultLimits [] 0 (by decide)).2,
   (level_default_and_validation mockCodec defaultLimits [] 23 (by decide)).2⟩

/-- C10: a second argument that is present but not a number is silently
ignored — the call behaves exactly as if the level were absent (default
level 3), with no failure. -/
theorem non_number_level_ignored (codec : Codec) (limits : Limits)
    (b : List Nat) (v : JSVal) (h : ∀ n, v ≠ .num n) :
    Compress codec limits [.buf b, v] = Compress codec limits [.buf b] := by
  cases v with
  | num n => exact absurd rfl (h n)
  | buf c => rfl
  | str s => rfl
  | undef => rfl

/-- Witness for C10: a string second argument behaves like an absent
level. -/
theorem non_number_level_ignored_witness :
    Compress mockCodec defaultLimits [.buf [7], .str "high"] =
      Compress mockCodec defaultLimits [.buf [7]] :=
  non_number_level_ignored mockCodec defaultLimits [7] (.str "high") (by simp)

/-- C7: a negative setter argument, or one exceeding the capacity of
`size_t`, is rejected with an invalid-argument error and leaves the
stored limits unchanged, for both setters. -/
theorem set_limit_rejects_invalid (limits : Limits) (v : Int)
    (h : v < 0 ∨ (SIZE_MAX : Int) < v) :
    (∃ msg, SetMaxInputSize limits [.num v] = (.error (.invalidArgument msg), limits)) ∧
    (∃ msg, SetMaxOutputSize limits [.num v] = (.error (.invalidArgument msg), limits)) := by
  rcases h with h | h
  · exact ⟨⟨"Input size limit cannot be negative",
        by simp [SetMaxInputSize, safeConvertToSizeT, h]⟩,
      ⟨"Output size limit cannot be negative",
        by simp [SetMaxOutputSize, safeConvertToSizeT, h]⟩⟩
  · have hneg : ¬ v < 0 := by
      have := Int.natCast_nonneg SIZE_MAX
      omega
    exact ⟨⟨"Input size limit is too large",
        by simp [SetMaxInputSize, safeConvertToSizeT, h, hneg]⟩,
      ⟨"Output size limit is too large",
        by simp [SetMaxOutputSize, safeConvertToSizeT, h, hneg]⟩⟩

/-- Witness for C7: `setMaxInputSize(-1)` and `setMaxOutputSize(-1)`
both fail and preserve the default limits. -/
theorem set_limit_rejects_invalid_witness :
    (∃ msg, SetMaxInputSize defaultLimits [.num (-1)] =
      (.error (.invalidArgument msg), defaultLimits)) ∧
    (∃ msg, SetMaxOutputSize defaultLimits [.num (-1)] =
      (.error (.invalidArgument msg), defaultLimits)) :=
  set_limit_rejects_invalid defaultLimits (-1) (Or.inl (by decide))

/-- C8: an accepted setter value is exactly what a subsequent
`getLimits` reports for the corresponding field, the other field being
untouched. -/
theorem set_then_get (limits : Limits) (v : Int)
    (h0 : 0 ≤ v) (h1 : v ≤ (SIZE_MAX : Int)) :
    (SetMaxInputSize limits [.num v]).1 = .ok () ∧
    GetLimits (SetMaxInputSize limits [.num v]).2 = (v.toNat, limits.maxOutputSize) ∧
    (SetMaxOutputSize limits [.num v]).1 = .ok () ∧
    GetLimits (SetMaxOutputSize limits [.num v]).2 = (limits.maxInputSize, v.toNat) := by
  have hneg : ¬ v < 0 := not_lt.mpr h0
  have hbig : ¬ (SIZE_MAX : Int) < v := not_lt.mpr h1
  simp [SetMaxInputSize, SetMaxOutputSize, GetLimits, safeConvertToSizeT, hneg, hbig]

/-- Witness for C8 at the spec's example value: after
`setMaxInputSize(2_000_000)`, `getLimits().maxInputSize` is
2,000,000. -/
theorem set_then_get_witness :
    (SetMaxInputSize defaultLimits [.num 2000000]).1 = .ok () ∧
    GetLimits (SetMaxInputSize defaultLimits [.num 2000000]).2 =
      (2000000, defaultLimits.maxOutputSize) ∧
    (SetMaxOutputSize defaultLimits [.num 2000000]).1 = .ok () ∧
    GetLimits (SetMaxOutputSize defaultLimits [.num 2000000]).2 =
      (defaultLimits.maxInputSize, 2000000) :=
  set_then_get defaultLimits 2000000 (by decide) (by decide)

end ZstdNative

namespace ZstdNative

/-- A size within the limit passes `validateSize`. -/
theorem validateSize_ok {size limit : Nat} (h : size ≤ limit) (context : String) :
    validateSize size limit context = .ok () := by
  unfold validateSize
  rw [if_neg (not_lt.mpr h)]

/-- A size above the limit is rejected by `validateSize`. -/
theorem validateSize_err {size limit : Nat} (h : limit < size) (context : String) :
    validateSize size limit context = .error (.sizeExceeded context size limit) := by
  unfold validateSize
  rw [if_pos h]

/-- A level within [`MIN_LEVEL`, `MAX_LEVEL`] passes `validateLevel`. -/
theorem validateLevel_ok {level : Int} (h1 : MIN_LEVEL ≤ level) (h2 : level ≤ MAX_LEVEL) :
    validateLevel level = .ok level := by
  unfold validateLevel
  have h : ¬ (level < MIN_LEVEL ∨ level > MAX_LEVEL) := by
    push_neg
    exact ⟨h1, h2⟩
  rw [if_neg h]

/-- C4: for a non-empty input that passes the input-size check,
`Compress` fails with the output-size error exactly when the worst-case
bound exceeds the output limit; on such a rejection the trace holds
only the bound query, so the compression primitive was never invoked;
and the decision is made from the bound, not the eventual compressed
size — a codec whose actual output fits the limit is still rejected. -/
theorem compress_bound_check (codec : Codec) (limits : Limits) (b : List Nat)
    (hne : b ≠ []) (hin : b.length ≤ limits.maxInputSize) :
    (Compress codec limits [.buf b] =
        .error (.sizeExceeded "Output" (codec.compressBound b.length) limits.maxOutputSize) ↔
      limits.maxOutputSize < codec.compressBound b.length) ∧
    (limits.maxOutputSize < codec.compressBound b.length →
      (CompressT codec limits limits [.buf b]).2 = [.boundCall b.length]) ∧
    (∃ codec2 limits2 b2, b2 ≠ [] ∧ b2.length ≤ limits2.maxInputSize ∧
      (∃ out, codec2.compressImpl b2 (codec2.compressBound b2.length) DEFAULT_LEVEL = .ok out ∧
        out.length ≤ limits2.maxOutputSize) ∧
      Compress codec2 limits2 [.buf b2] =
        .error (.sizeExceeded "Output" (codec2.compressBound b2.length) limits2.maxOutputSize)) := by
  have hlen : b.length ≠ 0 := fun h => hne (List.length_eq_zero.mp h)
  have hinOK := validateSize_ok hin "Input"
  refine ⟨?_, ?_, ?_⟩
  · by_cases hb : limits.maxOutputSize < codec.compressBound b.length
    · simp [Compress, CompressT, hinOK, hlen, validateSize_err hb, hb]
    · rw [iff_false_intro hb, iff_false]
      intro hbad
      cases hc : codec.compressImpl b (codec.compressBound b.length) DEFAULT_LEVEL with
      | error r =>
        simp [Compress, CompressT, hinOK, hlen, validateSize_ok (not_lt.mp hb), hc] at hbad
      | ok out =>
        simp [Compress, CompressT, hinOK, hlen, validateSize_ok (not_lt.mp hb), hc] at hbad
  · intro hb
    simp [CompressT, hinOK, hlen, validateSize_err hb]
  · refine ⟨tinyOutputCodec, Limits.mk 100 5, List.replicate 10 0, by decide, by decide,
      ⟨[0], rfl, by decide⟩, rfl⟩

/-- Witness for C4: `mockCodec` with limits (100, 5) on a 10-byte
buffer — the bound 74 exceeds 5, so the call is rejected with only the
bound query in its trace. -/
theorem compress_bound_check_witness :
    (Compress mockCodec (Limits.mk 100 5) [.buf (List.replicate 10 0)] =
        .error (.sizeExceeded "Output"
          (mockCodec.compressBound (List.replicate 10 0).length) (Limits.mk 100 5).maxOutputSize) ↔
      (Limits.mk 100 5).maxOutputSize < mockCodec.compressBound (List.replicate 10 0).length) ∧
    ((Limits.mk 100 5).maxOutputSize < mockCodec.compressBound (List.replicate 10 0).length →
      (CompressT mockCodec (Limits.mk 100 5) (Limits.mk 100 5) [.buf (List.replicate 10 0)]).2 =
        [.boundCall (List.replicate 10 0).length]) ∧
    (∃ codec2 limits2 b2, b2 ≠ [] ∧ b2.length ≤ limits2.maxInputSize ∧
      (∃ out, codec2.compressImpl b2 (codec2.compressBound b2.length) DEFAULT_LEVEL = .ok out ∧
        out.length ≤ limits2.maxOutputSize) ∧
      Compress codec2 limits2 [.buf b2] =
        .error (.sizeExceeded "Output" (codec2.compressBound b2.length) limits2.maxOutputSize)) :=
  compress_bound_check mockCodec (Limits.mk 100 5) (List.replicate 10 0) (by decide) (by decide)

/-- C5: a non-empty input within the input limit whose frame declares
no content size is rejected with the unknown-size error, a constructor
distinct from the corrupt-input error used for malformed frames. -/
theorem decompress_unknown_size (codec : Codec) (limits : Limits) (b : List Nat)
    (hne : b ≠ []) (hin : b.length ≤ limits.maxInputSize)
    (hframe : codec.getFrameContentSize b = .ok none) :
    Decompress codec limits [.buf b] = .error .unknownSize ∧
    ∀ reason, ZstdError.unknownSize ≠ ZstdError.corruptInput reason := by
  have hlen : b.length ≠ 0 := fun h => hne (List.length_eq_zero.mp h)
  exact ⟨by simp [Decompress, DecompressT, validateSize_ok hin, hlen, hframe],
    fun reason h => ZstdError.noConfusion h⟩

/-- Witness for C5: a codec reporting an unknown content size makes
decompression fail with the unknown-size error. -/
theorem decompress_unknown_size_witness :
    Decompress streamingCodec defaultLimits [.buf [0]] = .error .unknownSize ∧
    ZstdError.unknownSize ≠ ZstdError.corruptInput "bad frame" :=
  ⟨(decompress_unknown_size streamingCodec defaultLimits [0] (by decide) (by decide) rfl).1,
   (decompress_unknown_size streamingCodec defaultLimits [0] (by decide) (by decide) rfl).2
     "bad frame"⟩

/-- C6: a non-empty input within the input limit whose frame declares a
content size above the output limit is rejected with the output-size
error, with only the frame-size query in the trace — the decompression
primitive is never invoked. -/
theorem decompress_output_limit (codec : Codec) (limits : Limits) (b : List Nat) (n : Nat)
    (hne : b ≠ []) (hin : b.length ≤ limits.maxInputSize)
    (hframe : codec.getFrameContentSize b = .ok (some n))
    (hout : limits.maxOutputSize < n) :
    DecompressT codec limits limits [.buf b] =
      (.error (.sizeExceeded "Output" n limits.maxOutputSize), [.frameSizeCall b]) := by
  have hlen : b.length ≠ 0 := fun h => hne (List.length_eq_zero.mp h)
  simp [DecompressT, validateSize_ok hin, hlen, hframe, validateSize_err hout]

set_option maxRecDepth 100000 in
/-- Witness for C6 at the spec's example: a frame compressed from a
1,000-byte buffer under generous limits is rejected by decompression
once the output limit is 10. -/
theorem decompress_output_limit_witness :
    Compress mockCodec defaultLimits [.buf (List.replicate 1000 65)] =
      .ok (1000 :: List.replicate 1000 65) ∧
    DecompressT mockCodec (Limits.mk DEFAULT_MAX_INPUT_SIZE 10)
        (Limits.mk DEFAULT_MAX_INPUT_SIZE 10) [.buf (1000 :: List.replicate 1000 65)] =
      (.error (.sizeExceeded "Output" 1000 10), [.frameSizeCall (1000 :: List.replicate 1000 65)]) := by
  refine ⟨rfl, decompress_output_limit mockCodec (Limits.mk DEFAULT_MAX_INPUT_SIZE 10)
    (1000 :: List.replicate 1000 65) 1000 (by simp) ?_ rfl (by decide)⟩
  simp [DEFAULT_MAX_INPUT_SIZE]

end ZstdNative

namespace ZstdNative

/-- Counterexample to C1 as stated: with the genuinely inverse
`mockCodec` (its compression and decompression primitives invert each
other at this input, as the middle conjuncts show) and the registry set
to limits (100, 10), a 50-byte buffer satisfies the claim's only size
hypothesis `len(b) ≤ maxInputSize`, yet the round trip at level 3 does
not return the buffer: compression is rejected by the output-bound
check, so the claim's quantification is missing output-limit side
conditions. -/
theorem roundtrip_counterexample :
    (List.replicate 50 7).length ≤ (Limits.mk 100 10).maxInputSize ∧
    (MIN_LEVEL ≤ 3 ∧ (3 : Int) ≤ MAX_LEVEL) ∧
    mockCodec.compressImpl (List.replicate 50 7) (mockCodec.compressBound 50) 3 =
      .ok (50 :: List.replicate 50 7) ∧
    mockCodec.getFrameContentSize (50 :: List.replicate 50 7) = .ok (some 50) ∧
    mockCodec.decompressImpl (50 :: List.replicate 50 7) 50 = .ok (List.replicate 50 7) ∧
    roundTrip mockCodec (Limits.mk 100 10) (List.replicate 50 7) 3 =
      .error (.sizeExceeded "Output" 114 10) :=
  ⟨by decide, ⟨by decide, by decide⟩, rfl, rfl, rfl, rfl⟩

/-- C1 as amended: the round trip returns the original buffer for every
level in [1, 22] and non-empty buffer within the input limit, provided
the output-side checks also pass (the worst-case bound and the declared
content size are within the output limit, and the compressed frame is
non-empty and within the input limit) and the codec primitives are
inverse to each other at this input: compression succeeds with a frame
that declares the original length as its content size and decompresses
back to the original buffer.  (A zero-length buffer round-trips
unconditionally through the zero-length fast paths.) -/
theorem roundtrip_amended (codec : Codec) (limits : Limits) (b c : List Nat) (level : Int)
    (h1 : MIN_LEVEL ≤ level) (h2 : level ≤ MAX_LEVEL)
    (hne : b ≠ [])
    (hin : b.length ≤ limits.maxInputSize)
    (hbound : codec.compressBound b.length ≤ limits.maxOutputSize)
    (hcomp : codec.compressImpl b (codec.compressBound b.length) level = .ok c)
    (hcne : c ≠ [])
    (hcin : c.length ≤ limits.maxInputSize)
    (hframe : codec.getFrameContentSize c = .ok (some b.length))
    (hout : b.length ≤ limits.maxOutputSize)
    (hdec : codec.decompressImpl c b.length = .ok b) :
    roundTrip codec limits b level = .ok b := by
  have hlb : b.length ≠ 0 := fun h => hne (List.length_eq_zero.mp h)
  have hlc : c.length ≠ 0 := fun h => hcne (List.length_eq_zero.mp h)
  have hC : Compress codec limits [.buf b, .num level] = .ok c := by
    simp [Compress, CompressT, validateLevel_ok h1 h2, validateSize_ok hin,
          validateSize_ok hbound, hlb, hcomp]
  have hD : Decompress codec limits [.buf c] = .ok b := by
    simp [Decompress, DecompressT, validateSize_ok hcin, validateSize_ok hout,
          hlc, hframe, hdec]
  unfold roundTrip
  rw [hC]
  exact hD

/-- Witness for the amended C1: a 3-byte buffer round-trips through
`mockCodec` under the default limits at level 3. -/
theorem roundtrip_amended_witness :
    roundTrip mockCodec defaultLimits [1, 2, 3] 3 = .ok [1, 2, 3] :=
  roundtrip_amended mockCodec defaultLimits [1, 2, 3] [3, 1, 2, 3] 3
    (by decide) (by decide) (by decide) (by decide) (by decide) rfl
    (by decide) (by decide) rfl (by decide) rfl

/-- Counterexample to C9 as stated: the source acquires the registry
lock separately for each size check, so the two checks of one call need
not observe one consistent pair of limits.  Starting from limits
(10, 100), two interleaved setter calls move the registry to (1, 100)
and then (1, 0); a 5-byte compression whose input check observed the
initial state and whose output check observed the final state fails
with an output-size error — an outcome different from the call's result
under every single snapshot that existed during the call (success under
(10, 100), input-size errors under (1, 100) and (1, 0)). -/
theorem per_call_snapshot_counterexample :
    SetMaxInputSize (Limits.mk 10 100) [.num 1] = (.ok (), Limits.mk 1 100) ∧
    SetMaxOutputSize (Limits.mk 1 100) [.num 0] = (.ok (), Limits.mk 1 0) ∧
    (CompressT mockCodec (Limits.mk 10 100) (Limits.mk 1 0) [.buf [1, 2, 3, 4, 5]]).1 =
      .error (.sizeExceeded "Output" 69 0) ∧
    Compress mockCodec (Limits.mk 10 100) [.buf [1, 2, 3, 4, 5]] = .ok [5, 1, 2, 3, 4, 5] ∧
    Compress mockCodec (Limits.mk 1 100) [.buf [1, 2, 3, 4, 5]] =
      .error (.sizeExceeded "Input" 5 1) ∧
    Compress mockCodec (Limits.mk 1 0) [.buf [1, 2, 3, 4, 5]] =
      .error (.sizeExceeded "Input" 5 1) ∧
    (CompressT mockCodec (Limits.mk 10 100) (Limits.mk 1 0) [.buf [1, 2, 3, 4, 5]]).1 ≠
      Compress mockCodec (Limits.mk 10 100) [.buf [1, 2, 3, 4, 5]] ∧
    (CompressT mockCodec (Limits.mk 10 100) (Limits.mk 1 0) [.buf [1, 2, 3, 4, 5]]).1 ≠
      Compress mockCodec (Limits.mk 1 100) [.buf [1, 2, 3, 4, 5]] ∧
    (CompressT mockCodec (Limits.mk 10 100) (Limits.mk 1 0) [.buf [1, 2, 3, 4, 5]]).1 ≠
      Compress mockCodec (Limits.mk 1 0) [.buf [1, 2, 3, 4, 5]] :=
  ⟨rfl, rfl, rfl, rfl, rfl, rfl,
   fun h => by simp [Compress, CompressT, mockCodec, validateSize, validateLevel] at h,
   fun h => by simp [Compress, CompressT, mockCodec, validateSize, validateLevel] at h,
   fun h => by simp [Compress, CompressT, mockCodec, validateSize, validateLevel] at h⟩

/-- C9 as amended: each of the two size checks of a call reads the
registry under its own lock acquisition, so a call is described by the
pair of states observed at the two acquisitions.  The first check
depends only on the input limit it observed and the second only on the
output limit it observed; and a change between the two checks is never
retroactive — once the input check has passed, no input-size error can
be produced by the rest of the call, whatever the second observation
is. -/
theorem per_check_limits_amended (codec : Codec) (i1 o1 o1' i2 i2' o2 : Nat)
    (args : List JSVal) (b : List Nat) (s lim : Nat)
    (hin : b.length ≤ i1) :
    CompressT codec (Limits.mk i1 o1) (Limits.mk i2 o2) args =
      CompressT codec (Limits.mk i1 o1') (Limits.mk i2' o2) args ∧
    DecompressT codec (Limits.mk i1 o1) (Limits.mk i2 o2) args =
      DecompressT codec (Limits.mk i1 o1') (Limits.mk i2' o2) args ∧
    (CompressT codec (Limits.mk i1 o1) (Limits.mk i2 o2) [.buf b]).1 ≠
      .error (.sizeExceeded "Input" s lim) ∧
    (DecompressT codec (Limits.mk i1 o1) (Limits.mk i2 o2) [.buf b]).1 ≠
      .error (.sizeExceeded "Input" s lim) := by
  have hinOK : validateSize b.length i1 "Input" = .ok () := validateSize_ok hin "Input"
  refine ⟨rfl, rfl, ?_, ?_⟩
  · intro hbad
    by_cases h0 : b.length = 0
    · simp [CompressT, h0, validateSize_ok (Nat.zero_le i1)] at hbad
    · by_cases hb : o2 < codec.compressBound b.length
      · simp [CompressT, hinOK, h0, validateSize_err hb] at hbad
      · cases hc : codec.compressImpl b (codec.compressBound b.length) DEFAULT_LEVEL with
        | error r =>
          simp [CompressT, hinOK, h0, validateSize_ok (not_lt.mp hb), hc] at hbad
        | ok out =>
          simp [CompressT, hinOK, h0, validateSize_ok (not_lt.mp hb), hc] at hbad
  · intro hbad
    by_cases h0 : b.length = 0
    · simp [DecompressT, h0, validateSize_ok (Nat.zero_le i1)] at hbad
    · rcases hf : codec.getFrameContentSize b with r | n
      · simp [DecompressT, hinOK, h0, hf] at hbad
      · cases n with
        | none => simp [DecompressT, hinOK, h0, hf] at hbad
        | some m =>
          by_cases hb : o2 < m
          · simp [DecompressT, hinOK, h0, hf, validateSize_err hb] at hbad
          · cases hd : codec.decompressImpl b m with
            | error r =>
              simp [DecompressT, hinOK, h0, hf, validateSize_ok (not_lt.mp hb), hd] at hbad
            | ok out =>
              simp [DecompressT, hinOK, h0, hf, validateSize_ok (not_lt.mp hb), hd] at hbad

/-- Witness for the amended C9 at concrete observations: the input
check of a 2-byte call observed input limit 10, the output check
observed output limit 100; the unobserved fields do not matter and no
input-size error can arise. -/
theorem per_check_limits_amended_witness :
    (CompressT mockCodec (Limits.mk 10 0) (Limits.mk 7 100) [.buf [1, 2]] =
      CompressT mockCodec (Limits.mk 10 99) (Limits.mk 8 100) [.buf [1, 2]]) ∧
    (DecompressT mockCodec (Limits.mk 10 0) (Limits.mk 7 100) [.buf [1, 2]] =
      DecompressT mockCodec (Limits.mk 10 99) (Limits.mk 8 100) [.buf [1, 2]]) ∧
    (CompressT mockCodec (Limits.mk 10 0) (Limits.mk 7 100) [.buf [1, 2]]).1 ≠
      .error (.sizeExceeded "Input" 2 10) ∧
    (DecompressT mockCodec (Limits.mk 10 0) (Limits.mk 7 100) [.buf [1, 2]]).1 ≠
      .error (.sizeExceeded "Input" 2 10) :=
  per_check_limits_amended mockCodec 10 0 99 7 8 100 [.buf [1, 2]] [1, 2] 2 10 (by decide)

end ZstdNative
